import Mathlib

/-!
Shallow embedding of the ATS control server (ATSSEVER repository) connection
registry, authentication, identity cache, heartbeat supervisor and broadcast
logic, together with theorems settling the frozen claims about the spec.

Sources embedded:
- `src/server.js` (hybrid WebSocket + Socket.IO variant)
- `src/unnamed/part_000` (pure-WebSocket variant)
- `src/unnamed/part_001` (express-ws echo/poll variant)
- `src/unnamed/part_002` (Wemos-only variant with missed-heartbeat counting)

JavaScript host data (JSON.parse results, header values, socket handles) is
modelled by small inductive types; JS truthiness is modelled explicitly.
-/

namespace ATS

deriving instance DecidableEq for Except

/-- Model of a JavaScript value as produced by `JSON.parse` field access or a
missing property (`undefined`). Only the shapes the server code actually
inspects are represented. -/
inductive JsVal where
  | undefined : JsVal
  | null : JsVal
  | bool : Bool → JsVal
  | str : String → JsVal
  | num : Int → JsVal
deriving DecidableEq

/-- JavaScript truthiness of a value (`if (v)` / `v ? _ : _` / `!v`). -/
def JsVal.truthy : JsVal → Bool
  | .undefined => false
  | .null => false
  | .bool b => b
  | .str s => !s.data.isEmpty
  | .num n => n != 0

/-- JavaScript strict comparison `v === true`. -/
def JsVal.isTrue : JsVal → Bool
  | .bool b => b
  | _ => false

/-- Characters of `s.split(",")[0]`: everything before the first comma
(the whole string when no comma occurs). -/
def takeUntilComma : List Char → List Char
  | [] => []
  | c :: cs => if c = ',' then [] else c :: takeUntilComma cs

/-- Whitespace removed by `String.prototype.trim` (the forms that occur in
header values). -/
def isJsSpace (c : Char) : Bool :=
  c = ' ' || c = '\t' || c = '\n' || c = '\r'

/-- Drop leading JS whitespace. -/
def dropLeadingSpace : List Char → List Char
  | [] => []
  | c :: cs => if isJsSpace c then dropLeadingSpace cs else c :: cs

/-- `String.prototype.trim`: drop leading and trailing whitespace. -/
def jsTrimChars (cs : List Char) : List Char :=
  ((dropLeadingSpace (dropLeadingSpace cs).reverse)).reverse

/-- Header preprocessing `raw?.split(",")[0].trim()` from
`src/unnamed/part_000` lines 53-54 and `src/unnamed/part_002` lines 31-32:
a missing header stays `undefined`, otherwise the first comma-separated
token is trimmed. -/
def firstTokenTrim : Option String → Option String
  | none => none
  | some s => some (String.mk (jsTrimChars (takeUntilComma s.data)))

/-- JS truthiness of a string-or-undefined variable (`!username`):
`undefined` and the empty string are falsy. -/
def strTruthy : Option String → Bool
  | none => false
  | some s => !s.data.isEmpty

/-! ## JS `Map` operations (assoc-list model of `Map.get/has/set/delete`) -/

/-- `Map.prototype.has`. -/
def mapHas {κ ν : Type} [DecidableEq κ] : List (κ × ν) → κ → Bool
  | [], _ => false
  | p :: rest, k => if p.1 = k then true else mapHas rest k

/-- `Map.prototype.get` (as `Option`; `undefined` becomes `none`). -/
def mapGet {κ ν : Type} [DecidableEq κ] : List (κ × ν) → κ → Option ν
  | [], _ => none
  | p :: rest, k => if p.1 = k then some p.2 else mapGet rest k

/-- `Map.prototype.set`: replace the binding for `k` if present, otherwise
append a new one. -/
def mapSet {κ ν : Type} [DecidableEq κ] : List (κ × ν) → κ → ν → List (κ × ν)
  | [], k, v => [(k, v)]
  | p :: rest, k, v => if p.1 = k then (k, v) :: rest else p :: mapSet rest k v

/-- `Map.prototype.delete`. -/
def mapDelete {κ ν : Type} [DecidableEq κ] : List (κ × ν) → κ → List (κ × ν)
  | [], _ => []
  | p :: rest, k => if p.1 = k then mapDelete rest k else p :: mapDelete rest k

/-- Number of entries whose key equals `k` (a JS `Map` always has at most 1). -/
def countKey {κ ν : Type} [DecidableEq κ] : List (κ × ν) → κ → Nat
  | [], _ => 0
  | p :: rest, k => (if p.1 = k then 1 else 0) + countKey rest k

/-! ## Authentication backend (`wemos_auth`) -/

/-- The `data` sub-object of a successful auth payload; absent fields are
`JsVal.undefined`. -/
structure AuthData where
  device_name : JsVal
  hard_switch_enabled : JsVal
deriving DecidableEq

/-- Outcome of `await resp.text()` followed by `JSON.parse`: either the parse
throws, or it yields a non-object primitive, or an object with a `success`
field value and an optional `data` sub-object. -/
inductive AuthBody where
  | malformed : AuthBody
  | nonObj : JsVal → AuthBody
  | obj : JsVal → Option AuthData → AuthBody
deriving DecidableEq

/-- `data.data?.device_name` (`undefined` when `data.data` is absent). -/
def authDeviceNameField : Option AuthData → JsVal
  | some d => d.device_name
  | none => .undefined

/-- `data.data?.hard_switch_enabled`. -/
def authHardSwitchField : Option AuthData → JsVal
  | some d => d.hard_switch_enabled
  | none => .undefined

/-- Result object returned by a successful authentication
(`{ deviceName, initialCommand }`). -/
structure AuthResult where
  deviceName : JsVal
  initialCommand : String
deriving DecidableEq

/-- JS `v || defaultString`: the left operand if truthy, else the default. -/
def jsOrStr (v : JsVal) (d : String) : JsVal :=
  if v.truthy then v else .str d

/-- `authenticateClient(headers)` from `src/unnamed/part_000` lines 49-98.
Takes the raw `x-username` / `x-password` header values and the outcome of the
single `fetch` to the auth backend (`Except.error` models the fetch throwing).
Returns the JS return value paired with the number of backend calls issued.
All `null` returns are `none`: missing/empty credentials (before any fetch),
fetch exception, JSON parse error, non-object or falsy-`success` payloads.
On success the device name falls back to the username (`||`) and the initial
command is `"HARD_ON"`/`"HARD_OFF"` by truthiness of `hard_switch_enabled`. -/
def authenticateClient (xUsername xPassword : Option String)
    (fetchResult : Except Unit AuthBody) : Option AuthResult × Nat :=
  let username := firstTokenTrim xUsername
  let password := firstTokenTrim xPassword
  if !strTruthy username || !strTruthy password then (none, 0)
  else
    match fetchResult with
    | .error _ => (none, 1)
    | .ok .malformed => (none, 1)
    | .ok (.nonObj _) => (none, 1)
    | .ok (.obj success data_) =>
      if !success.truthy then (none, 1)
      else
        (some ⟨jsOrStr (authDeviceNameField data_) (username.getD ""),
               if (authHardSwitchField data_).truthy then "HARD_ON" else "HARD_OFF"⟩, 1)

/-- `authenticateDevice(headers)` from `src/unnamed/part_002` lines 30-60.
Identical observable behaviour to `authenticateClient`: one fetch, no retry;
a `null`/non-object payload rejects (accessing `.success` on `null` throws and
is caught by the surrounding `try`). -/
def authenticateDevice (xUsername xPassword : Option String)
    (fetchResult : Except Unit AuthBody) : Option AuthResult × Nat :=
  let username := firstTokenTrim xUsername
  let password := firstTokenTrim xPassword
  if !strTruthy username || !strTruthy password then (none, 0)
  else
    match fetchResult with
    | .error _ => (none, 1)
    | .ok .malformed => (none, 1)
    | .ok (.nonObj _) => (none, 1)
    | .ok (.obj success data_) =>
      if !success.truthy then (none, 1)
      else
        (some ⟨jsOrStr (authDeviceNameField data_) (username.getD ""),
               if (authHardSwitchField data_).truthy then "HARD_ON" else "HARD_OFF"⟩, 1)

/-- Outcome of the `/wemos` connection handler's authentication phase. -/
inductive ConnOutcome where
  | rejected : Nat → String → ConnOutcome
  | accepted : JsVal → String → ConnOutcome
deriving DecidableEq

/-- The `/wemos` branch of `wss.on("connection")` from `src/unnamed/part_000`
lines 209-216: a `null` auth result closes the socket with
`ws.close(1008, "Unauthorized")`; otherwise the session is accepted with the
authenticated device name and initial command. The backend-call count is
passed through. -/
def handleWemosConnection (xu xp : Option String) (fetchResult : Except Unit AuthBody) :
    ConnOutcome × Nat :=
  match authenticateClient xu xp fetchResult with
  | (none, n) => (.rejected 1008 "Unauthorized", n)
  | (some a, n) => (.accepted a.deviceName a.initialCommand, n)

/-! ## Identity cache (`getCachedWemosDeviceNameForUser`) -/

/-- `JSON.parse` outcome of the user→device lookup response body: either the
parse throws (`resp.json()` rejection) or the `success` and `device_name`
fields of the parsed payload. -/
inductive LookupBody where
  | malformed : LookupBody
  | parsed : JsVal → JsVal → LookupBody
deriving DecidableEq

/-- Lookup HTTP response: `resp.ok`, whether the `content-type` header
includes `application/json`, and the body parse outcome. -/
structure LookupResp where
  ok : Bool
  contentTypeJson : Bool
  body : LookupBody
deriving DecidableEq

/-- `getCachedWemosDeviceNameForUser(userEmail)` from `src/unnamed/part_000`
lines 103-133. State-passing embedding of the `userToWemosCache` map: returns
`(result, new cache, number of backend calls)`. A falsy email returns `null`
with no call; a cache hit returns the cached value with no call; otherwise one
backend call is made and the pair is cached only when `data.success === true`
and `data.device_name` is truthy. Every failure (fetch rejection, non-ok
status, wrong content type, parse error, failure flag) returns `null` and
leaves the cache unchanged. -/
def getCachedWemosDeviceNameForUser (cache : List (String × JsVal)) (userEmail : String)
    (fetchResult : Except Unit LookupResp) : Option JsVal × List (String × JsVal) × Nat :=
  if userEmail.data.isEmpty then (none, cache, 0)
  else if mapHas cache userEmail then (mapGet cache userEmail, cache, 0)
  else
    match fetchResult with
    | .error _ => (none, cache, 1)
    | .ok resp =>
      if !resp.ok then (none, cache, 1)
      else if !resp.contentTypeJson then (none, cache, 1)
      else
        match resp.body with
        | .malformed => (none, cache, 1)
        | .parsed success device_name =>
          if success.isTrue && device_name.truthy then
            (some device_name, mapSet cache userEmail device_name, 1)
          else (none, cache, 1)

/-- Predicate on a received lookup response: every case the source treats as a
failure (non-ok status, non-JSON content type, parse error, falsy success
flag or falsy device name). -/
def lookupFailed (r : LookupResp) : Bool :=
  !r.ok || !r.contentTypeJson ||
    (match r.body with
     | .malformed => true
     | .parsed success device_name => !(success.isTrue && device_name.truthy))

/-- Cache evolution under one later `getCachedWemosDeviceNameForUser` call
(for an arbitrary email and backend outcome). -/
def resolveStep (cache : List (String × JsVal)) (op : String × Except Unit LookupResp) :
    List (String × JsVal) :=
  (getCachedWemosDeviceNameForUser cache op.1 op.2).2.1

/-- Cache evolution under a sequence of later resolve calls. -/
def resolveRun (cache : List (String × JsVal)) (ops : List (String × Except Unit LookupResp)) :
    List (String × JsVal) :=
  ops.foldl resolveStep cache

/-! ## Connection registry (`authenticatedClients` / `authenticatedWemos`) -/

/-- Registry events, taken from the source's socket callbacks:
`connect name` is a successful authentication reaching the registration block
(`src/unnamed/part_000` lines 221-226, `src/server.js` lines 173-177);
`socketClose name t` is transport `t`'s `ws.on("close")` handler registered
under `name` (`src/unnamed/part_000` lines 237-242, which deletes the map
entry for `name` unconditionally); `hbTerminate name` is the heartbeat
supervisor terminating and deregistering the transport currently registered
under `name` (`src/unnamed/part_002` lines 126-129). -/
inductive RegEvent where
  | connect : JsVal → RegEvent
  | socketClose : JsVal → Nat → RegEvent
  | hbTerminate : JsVal → RegEvent
deriving DecidableEq

/-- Registry state: the `deviceName → WebSocket` map (transports named by
allocation index), the set of transports that have been closed or terminated,
and the next fresh transport index. -/
structure RegState where
  reg : List (JsVal × Nat)
  closedT : List Nat
  nextId : Nat
deriving DecidableEq

/-- `ws.readyState === WebSocket.OPEN` for transport `t`: it has been
allocated and has not been closed or terminated. -/
def RegState.openT (s : RegState) (t : Nat) : Bool :=
  decide (t < s.nextId) && !(s.closedT.any (fun c => decide (c = t)))

/-- Initial registry state: empty maps, no transports. -/
def regInit : RegState := ⟨[], [], 0⟩

/-- One registry transition. `connect` allocates a fresh open transport,
force-terminates an existing open transport registered under the same name
(`old.terminate()`), and replaces the map entry. `socketClose` marks the
closing transport closed and deletes the map entry for its device name
unconditionally (as the cited close handlers do). `hbTerminate` terminates
and deletes the currently registered transport, if any. -/
def applyEvent (s : RegState) : RegEvent → RegState
  | .connect name =>
    let closed' :=
      match mapGet s.reg name with
      | some old => if s.openT old then old :: s.closedT else s.closedT
      | none => s.closedT
    ⟨mapSet s.reg name s.nextId, closed', s.nextId + 1⟩
  | .socketClose name t =>
    if t < s.nextId then ⟨mapDelete s.reg name, t :: s.closedT, s.nextId⟩ else s
  | .hbTerminate name =>
    match mapGet s.reg name with
    | some t => ⟨mapDelete s.reg name, t :: s.closedT, s.nextId⟩
    | none => s

/-- Registry state reached from `regInit` by a sequence of events. -/
def applyEvents (s : RegState) (evts : List RegEvent) : RegState :=
  evts.foldl applyEvent s

/-- Number of registry entries under device identity `D` whose transport is
open. -/
def liveSessionsUnder (s : RegState) (D : JsVal) : Nat :=
  (s.reg.filter (fun p => decide (p.1 = D) && s.openT p.2)).length

/-- The `ws.on('close')` cleanup of `src/unnamed/part_001` lines 44-46: delete
exactly the entries whose stored handle is the closing socket
(`if (client === ws) authenticatedWemos.delete(name)`). -/
def part001CloseCleanup (m : List (JsVal × Nat)) (t : Nat) : List (JsVal × Nat) :=
  m.filter (fun p => decide (¬ p.2 = t))

/-! ## Heartbeat supervisor (`src/unnamed/part_002` lines 121-140) -/

/-- Per-device heartbeat state: the `ws.isAlive` flag, the
`heartbeatState` missed-count, and whether the device has been terminated
(and hence deleted from `connectedDevices` and `heartbeatState`). -/
structure HbState where
  isAlive : Bool
  missed : Nat
  terminated : Bool
deriving DecidableEq

/-- State installed at registration (`ws.isAlive = true;
heartbeatState.set(deviceName, 0)`, lines 100-101). -/
def hbRegister : HbState := ⟨true, 0, false⟩

/-- One `setInterval` heartbeat cycle for one device (lines 121-140): a
terminated device is no longer in `connectedDevices`, so the `forEach` skips
it. Otherwise, if `isAlive` is false the missed-count (`|| 0`) is examined:
`missed >= 2` terminates and deregisters, else the count is incremented and a
ping is sent; if `isAlive` is true the flag is cleared and a ping is sent. -/
def heartbeatCycle (s : HbState) : HbState :=
  if s.terminated then s
  else if !s.isAlive then
    if s.missed ≥ 2 then ⟨s.isAlive, s.missed, true⟩
    else ⟨s.isAlive, s.missed + 1, false⟩
  else ⟨false, s.missed, false⟩

/-- The `ws.on("pong")` handler (lines 107-111): sets `isAlive` true and
resets the missed-count to zero. -/
def hbPong (s : HbState) : HbState :=
  if s.terminated then s else ⟨true, 0, false⟩

/-- State of a registered device that never acknowledges any probe, after `n`
heartbeat cycles. -/
def hbNeverAck : Nat → HbState
  | 0 => hbRegister
  | n + 1 => heartbeatCycle (hbNeverAck n)

/-- Number of the first `n` cycles that are "missed" cycles: executed while
the device is still registered and its liveness flag is false (cycle `k + 1`
runs on entry state `hbNeverAck k`). -/
def missedEntriesBefore (n : Nat) : Nat :=
  (List.range n).countP (fun k => !(hbNeverAck k).isAlive && !(hbNeverAck k).terminated)

/-! ## Transports, broadcast, and the status poll -/

/-- A transport handle as the broadcast loops see it: whether
`readyState === OPEN`, and whether `ws.send` throws. -/
structure Transport where
  isOpen : Bool
  sendThrows : Bool
deriving DecidableEq

/-- Per-peer result of a broadcast iteration. -/
inductive SendOutcome where
  | delivered : SendOutcome
  | sendFailed : SendOutcome
  | skippedClosed : SendOutcome
deriving DecidableEq

/-- `ws.send(msg)` as a fallible host call. -/
def sendRaw (t : Transport) (_msg : String) : Except Unit Unit :=
  if t.sendThrows then .error () else .ok ()

/-- One iteration of the device broadcast loop
(`if (ws.readyState === WebSocket.OPEN) { try { ws.send(msg) } catch (e) {} }`,
`src/server.js` lines 220-224 and `src/unnamed/part_000` lines 181-185): the
`try`/`catch` confines a throwing send to its own iteration. -/
def trySendGuarded (t : Transport) (msg : String) : SendOutcome :=
  if t.isOpen then
    match sendRaw t msg with
    | .ok _ => .delivered
    | .error _ => .sendFailed
  else .skippedClosed

/-- The device broadcast: iterate every registry entry in order, applying the
guarded send to each. -/
def broadcastToDevices : List (JsVal × Transport) → String → List (JsVal × SendOutcome)
  | [], _ => []
  | p :: rest, msg => (p.1, trySendGuarded p.2 msg) :: broadcastToDevices rest msg

/-- Parsed JSON of the status-poll response
(`{ success, message, id }`). -/
structure PollJson where
  success : JsVal
  message : JsVal
  id : JsVal
deriving DecidableEq

/-- Status-poll HTTP response: `resp.ok`, `resp.status`, and the body parse
outcome (`none` = invalid JSON). -/
structure PollResp where
  ok : Bool
  status : Nat
  body : Option PollJson
deriving DecidableEq

/-- Observable outcome of one status-poll cycle: either the global trigger
fired (with the per-device broadcast results) or it did not; both carry the
log lines emitted. The function returning this type normally (rather than an
`Except`) is the "never raises" behaviour of the outer `try`/`catch`. -/
inductive PollOutcome where
  | triggered : List (JsVal × SendOutcome) → List String → PollOutcome
  | notTriggered : List String → PollOutcome
deriving DecidableEq

/-- Whether the cycle broadcast anything. -/
def PollOutcome.broadcasts : PollOutcome → Bool
  | .triggered _ _ => true
  | .notTriggered _ => false

/-- Log lines of the cycle. -/
def PollOutcome.logLines : PollOutcome → List String
  | .triggered _ ls => ls
  | .notTriggered ls => ls

/-- `checkPhpBackend()` from `src/server.js` lines 211-229. The inner
`Except` models exception flow inside the `try` block: a fetch rejection or a
`resp.json()` parse failure throws; the `catch` turns any such error into a
logged, non-broadcasting outcome. A non-ok status returns silently (line 214
logs nothing). Only `data.success === true` broadcasts `AUTO_ON`. -/
def checkPhpBackendServer (reg : List (JsVal × Transport))
    (fetchResult : Except String PollResp) : PollOutcome :=
  let attempt : Except String PollOutcome :=
    match fetchResult with
    | .error e => .error e
    | .ok resp =>
      if !resp.ok then .ok (.notTriggered [])
      else
        match resp.body with
        | none => .error "Unexpected token in JSON"
        | some data =>
          if data.success.isTrue then
            .ok (.triggered (broadcastToDevices reg "AUTO_ON") ["AUTO_ON triggered globally."])
          else .ok (.notTriggered [])
  match attempt with
  | .ok outcome => outcome
  | .error e => .notTriggered ["checkPhpBackend error: " ++ e]

/-- `checkPhpBackend()` from `src/unnamed/part_001` lines 68-107 (device
fan-out; the parallel web-client fan-out is outside the claims). A non-ok
status throws `HTTP <status>` (line 71), caught and logged by the outer
`catch`; a JSON parse failure returns silently with no log (line 74); a falsy
success flag logs a failure message; `data.success === true` broadcasts
`AUTO_ON` to the devices. -/
def checkPhpBackendPart001 (reg : List (JsVal × Transport))
    (fetchResult : Except String PollResp) : PollOutcome :=
  let attempt : Except String PollOutcome :=
    match fetchResult with
    | .error e => .error e
    | .ok resp =>
      if !resp.ok then .error ("HTTP " ++ toString resp.status)
      else
        match resp.body with
        | none => .ok (.notTriggered [])
        | some data =>
          if data.success.isTrue then
            .ok (.triggered (broadcastToDevices reg "AUTO_ON") ["AUTO_ON triggered globally."])
          else .ok (.notTriggered ["PHP backend response indicates failure"])
  match attempt with
  | .ok outcome => outcome
  | .error e => .notTriggered ["checkPhpBackend error: " ++ e]

/-- A status-poll interaction the claim classifies as a failure: the fetch
rejected, or the HTTP status was not ok, or the body was not valid JSON. -/
def pollFailed : Except String PollResp → Bool
  | .error _ => true
  | .ok resp => !resp.ok || resp.body.isNone

/-- The backend of the spec's retry scenario: fails (fetch rejection) on
attempts 0 and 1 and succeeds on attempt 2. -/
def failTwiceThenSucceed : Nat → Except Unit AuthBody :=
  fun attempt =>
    if attempt < 2 then .error ()
    else .ok (.obj (.bool true) (some ⟨.str "D1", .bool false⟩))

/-! ## Map lemmas -/

theorem mapGet_of_mapHas_false {κ ν : Type} [DecidableEq κ] (m : List (κ × ν)) (k : κ)
    (h : mapHas m k = false) : mapGet m k = none := by
  induction m with
  | nil => rfl
  | cons p rest ih =>
    by_cases hk : p.1 = k
    · simp [mapHas, hk] at h
    · simp [mapHas, hk] at h
      simp [mapGet, hk, ih h]

theorem mapHas_of_mapGet_some {κ ν : Type} [DecidableEq κ] {m : List (κ × ν)} {k : κ} {v : ν}
    (h : mapGet m k = some v) : mapHas m k = true := by
  induction m with
  | nil => simp [mapGet] at h
  | cons p rest ih =>
    by_cases hk : p.1 = k
    · simp [mapHas, hk]
    · simp [mapGet, hk] at h
      simp [mapHas, hk]
      exact ih h

theorem mapGet_mapSet_self {κ ν : Type} [DecidableEq κ] (m : List (κ × ν)) (k : κ) (v : ν) :
    mapGet (mapSet m k v) k = some v := by
  induction m with
  | nil => simp [mapSet, mapGet]
  | cons p rest ih =>
    by_cases hk : p.1 = k
    · simp [mapSet, hk, mapGet]
    · simp [mapSet, hk, mapGet, ih]

theorem mapGet_mapSet_ne {κ ν : Type} [DecidableEq κ] (m : List (κ × ν)) (k k' : κ) (v : ν)
    (h : ¬ k = k') : mapGet (mapSet m k v) k' = mapGet m k' := by
  induction m with
  | nil => simp [mapSet, mapGet, h]
  | cons p rest ih =>
    by_cases hk : p.1 = k
    · simp [mapSet, hk, mapGet, h]
    · have h' : ¬ k' = k := fun hh => h hh.symm
      by_cases hk' : p.1 = k'
      · simp [mapSet, hk, mapGet, hk', h']
      · simp [mapSet, hk, mapGet, hk', ih]

theorem mapGet_mapDelete_self {κ ν : Type} [DecidableEq κ] (m : List (κ × ν)) (k : κ) :
    mapGet (mapDelete m k) k = none := by
  induction m with
  | nil => rfl
  | cons p rest ih =>
    by_cases hk : p.1 = k
    · simp [mapDelete, hk, ih]
    · simp [mapDelete, hk, mapGet, ih]

theorem countKey_mapSet_ne {κ ν : Type} [DecidableEq κ] (m : List (κ × ν)) (k D : κ) (v : ν)
    (h : ¬ k = D) : countKey (mapSet m k v) D = countKey m D := by
  induction m with
  | nil => simp [mapSet, countKey, h]
  | cons p rest ih =>
    by_cases hk : p.1 = k
    · simp [mapSet, hk, countKey, h]
    · simp [mapSet, hk, countKey, ih]

theorem countKey_mapSet_le {κ ν : Type} [DecidableEq κ] (m : List (κ × ν)) (k D : κ) (v : ν)
    (h : countKey m D ≤ 1) : countKey (mapSet m k v) D ≤ 1 := by
  by_cases hkD : k = D
  · subst hkD
    induction m with
    | nil => simp [mapSet, countKey]
    | cons p rest ih =>
      by_cases hk : p.1 = k
      · simp [countKey, hk] at h
        simp [mapSet, hk, countKey]
        omega
      · simp [countKey, hk] at h
        simp [mapSet, hk, countKey]
        exact ih h
  · rw [countKey_mapSet_ne m k D v hkD]
    exact h

theorem countKey_mapDelete_le {κ ν : Type} [DecidableEq κ] (m : List (κ × ν)) (k D : κ) :
    countKey (mapDelete m k) D ≤ countKey m D := by
  induction m with
  | nil => simp [mapDelete]
  | cons p rest ih =>
    by_cases hk : p.1 = k
    · simp [mapDelete, hk, countKey]
      exact le_trans ih (Nat.le_add_left _ _)
    · simp [mapDelete, hk, countKey]
      omega

theorem length_filter_key_le {κ ν : Type} [DecidableEq κ] (m : List (κ × ν)) (D : κ)
    (q : κ × ν → Bool) :
    (m.filter (fun p => decide (p.1 = D) && q p)).length ≤ countKey m D := by
  induction m with
  | nil => simp [countKey]
  | cons p rest ih =>
    simp only [List.filter_cons, countKey]
    by_cases hD : p.1 = D
    · cases hq : q p
      · simp [hD, hq]
        omega
      · simp [hD, hq]
        omega
    · simp [hD]
      omega

/-! ## Claim C7 -/

/-- Claim C7 (confirmed): a device connection whose `x-username` header is
missing, or whose credentials are missing or malformed (empty after taking the
first comma-separated token and trimming), is closed immediately with close
code 1008 "Unauthorized" and zero backend authentication calls are made. -/
theorem missing_credentials_rejected_without_backend_call (xu xp : Option String)
    (fetchResult : Except Unit AuthBody)
    (h : strTruthy (firstTokenTrim xu) = false ∨ strTruthy (firstTokenTrim xp) = false) :
    handleWemosConnection xu xp fetchResult = (.rejected 1008 "Unauthorized", 0) := by
  unfold handleWemosConnection authenticateClient
  rcases h with h | h <;> simp [h]

/-- Witness for C7: a connection with no `x-username` header at all is
rejected with 1008 and zero backend calls, by the theorem applied at a
concrete input. -/
theorem missing_credentials_rejected_witness :
    strTruthy (firstTokenTrim none) = false
    ∧ handleWemosConnection none (some "pw")
        (Except.ok (AuthBody.obj (.bool true) none)) = (.rejected 1008 "Unauthorized", 0) :=
  ⟨by decide,
   missing_credentials_rejected_without_backend_call none (some "pw")
     (Except.ok (AuthBody.obj (.bool true) none)) (Or.inl (by decide))⟩

/-! ## Claim C10 -/

/-- Claim C10 (confirmed): when the backend reports success but the payload
omits `device_name` (either the whole `data` sub-object is absent, or the
field itself is `undefined`), the canonical device identity falls back to the
supplied username (first comma token, trimmed), in both `authenticateClient`
(part_000) and `authenticateDevice` (part_002). -/
theorem device_name_falls_back_to_username (xu xp : Option String) (su hw : JsVal)
    (hu : strTruthy (firstTokenTrim xu) = true) (hp : strTruthy (firstTokenTrim xp) = true)
    (hs : su.truthy = true) :
    (authenticateClient xu xp (.ok (.obj su (some ⟨.undefined, hw⟩)))).1
      = some ⟨.str ((firstTokenTrim xu).getD ""),
              if hw.truthy then "HARD_ON" else "HARD_OFF"⟩
    ∧ (authenticateDevice xu xp (.ok (.obj su none))).1
      = some ⟨.str ((firstTokenTrim xu).getD ""), "HARD_OFF"⟩ := by
  unfold authenticateClient authenticateDevice
  simp [hu, hp, hs, authDeviceNameField, authHardSwitchField, jsOrStr,
    show JsVal.truthy .undefined = false from rfl]

/-- Witness for C10 at a concrete input: username `wemosA`, successful
backend response with `data.device_name` undefined. -/
theorem device_name_fallback_witness :
    firstTokenTrim (some "wemosA") = some "wemosA"
    ∧ (authenticateClient (some "wemosA") (some "pw")
         (.ok (.obj (.bool true) (some ⟨.undefined, .bool true⟩)))).1
        = some ⟨.str ((firstTokenTrim (some "wemosA")).getD ""),
                if (JsVal.bool true).truthy then "HARD_ON" else "HARD_OFF"⟩ :=
  ⟨by decide,
   (device_name_falls_back_to_username (some "wemosA") (some "pw") (.bool true) (.bool true)
      (by decide) (by decide) (by decide)).1⟩

/-! ## Claim C6 -/

/-- Claim C6 counterexample: on successful authentication the initial
directive literals are `HARD_ON` / `HARD_OFF`, not the claimed `PRIMARY_ON` /
`PRIMARY_OFF`, evaluated at a concrete successful backend response for each
truth value of the flag. -/
theorem initial_directive_literals_cex :
    (authenticateClient (some "u1") (some "p1")
        (.ok (.obj (.bool true) (some ⟨.str "D1", .bool true⟩)))).1
      = some ⟨.str "D1", "HARD_ON"⟩
    ∧ (authenticateClient (some "u1") (some "p1")
        (.ok (.obj (.bool true) (some ⟨.str "D1", .bool false⟩)))).1
      = some ⟨.str "D1", "HARD_OFF"⟩
    ∧ "HARD_ON" ≠ "PRIMARY_ON" ∧ "HARD_OFF" ≠ "PRIMARY_OFF" := by
  decide

/-- Claim C6 amended (proved): every successful authentication yields the
initial directive `HARD_ON` when `data.data?.hard_switch_enabled` is truthy
and `HARD_OFF` when it is not. -/
theorem initial_directive_from_flag (xu xp : Option String) (su : JsVal)
    (data_ : Option AuthData) (r : AuthResult)
    (h : (authenticateClient xu xp (Except.ok (AuthBody.obj su data_))).1 = some r) :
    r.initialCommand
      = if (authHardSwitchField data_).truthy then "HARD_ON" else "HARD_OFF" := by
  cases hu : strTruthy (firstTokenTrim xu) <;>
    cases hp2 : strTruthy (firstTokenTrim xp) <;>
      cases hsu : su.truthy <;>
        simp [authenticateClient, hu, hp2, hsu] at h <;>
          simp [← h]

/-- Witness for the amended C6 at a concrete successful response with a
truthy (numeric) flag. -/
theorem initial_directive_from_flag_witness :
    (authenticateClient (some "u2") (some "p2")
        (Except.ok (AuthBody.obj (.bool true) (some ⟨.str "D2", .num 1⟩)))).1
      = some ⟨.str "D2", "HARD_ON"⟩
    ∧ (⟨.str "D2", "HARD_ON"⟩ : AuthResult).initialCommand
        = if (authHardSwitchField (some ⟨.str "D2", .num 1⟩)).truthy
          then "HARD_ON" else "HARD_OFF" :=
  ⟨by decide,
   initial_directive_from_flag (some "u2") (some "p2") (.bool true)
     (some ⟨.str "D2", .num 1⟩) ⟨.str "D2", "HARD_ON"⟩ (by decide)⟩

/-! ## Claim C3 -/

/-- Claim C3 counterexample: with a backend that fails on the first two
attempts and would succeed on the third, authentication returns `null` after
exactly one backend call — there is no retry loop, so the claimed
"success after exactly 3 attempts" is false. -/
theorem authenticate_no_retry_cex :
    authenticateClient (some "u3") (some "p3") (failTwiceThenSucceed 0) = (none, 1)
    ∧ authenticateDevice (some "u3") (some "p3") (failTwiceThenSucceed 0) = (none, 1)
    ∧ failTwiceThenSucceed 2
        = Except.ok (AuthBody.obj (.bool true) (some ⟨.str "D1", .bool false⟩)) := by
  decide

/-- Claim C3 amended (proved): both authentication functions issue at most
one backend call, a transport failure immediately yields the terminal `null`
result, and the caller treats that as rejection (close 1008). -/
theorem authenticate_single_attempt_terminal (xu xp : Option String)
    (f : Except Unit AuthBody) :
    (authenticateClient xu xp f).2 ≤ 1
    ∧ (authenticateClient xu xp (Except.error ())).1 = none
    ∧ (authenticateDevice xu xp f).2 ≤ 1
    ∧ (authenticateDevice xu xp (Except.error ())).1 = none
    ∧ (handleWemosConnection xu xp (Except.error ())).1
        = ConnOutcome.rejected 1008 "Unauthorized" := by
  have hnone : (authenticateClient xu xp (Except.error ())).1 = none := by
    unfold authenticateClient
    by_cases hg : (!strTruthy (firstTokenTrim xu) || !strTruthy (firstTokenTrim xp)) = true
    · simp [hg]
    · rw [Bool.not_eq_true] at hg
      simp [hg]
  have hcalls : ∀ g : Except Unit AuthBody, (authenticateClient xu xp g).2 ≤ 1 := by
    intro g
    unfold authenticateClient
    by_cases hg : (!strTruthy (firstTokenTrim xu) || !strTruthy (firstTokenTrim xp)) = true
    · simp [hg]
    · rw [Bool.not_eq_true] at hg
      rcases g with e | b
      · simp [hg]
      · rcases b with _ | v | ⟨su, d⟩ <;> simp [hg]
        split <;> simp
  have hcallsD : ∀ g : Except Unit AuthBody, (authenticateDevice xu xp g).2 ≤ 1 := by
    intro g
    unfold authenticateDevice
    by_cases hg : (!strTruthy (firstTokenTrim xu) || !strTruthy (firstTokenTrim xp)) = true
    · simp [hg]
    · rw [Bool.not_eq_true] at hg
      rcases g with e | b
      · simp [hg]
      · rcases b with _ | v | ⟨su, d⟩ <;> simp [hg]
        split <;> simp
  have hnoneD : (authenticateDevice xu xp (Except.error ())).1 = none := by
    unfold authenticateDevice
    by_cases hg : (!strTruthy (firstTokenTrim xu) || !strTruthy (firstTokenTrim xp)) = true
    · simp [hg]
    · rw [Bool.not_eq_true] at hg
      simp [hg]
  refine ⟨hcalls f, hnone, hcallsD f, hnoneD, ?_⟩
  unfold handleWemosConnection
  rcases hres : authenticateClient xu xp (Except.error ()) with ⟨o, n⟩
  rw [hres] at hnone
  simp only at hnone
  subst hnone
  simp

/-! ## Claim C2 -/

theorem heartbeatCycle_of_terminated (s : HbState) (h : s.terminated = true) :
    heartbeatCycle s = s := by
  unfold heartbeatCycle
  simp [h]

theorem hbNeverAck_of_ge_four (n : Nat) (h : 4 ≤ n) :
    hbNeverAck n = ⟨false, 2, true⟩ := by
  induction n with
  | zero => omega
  | succ k ih =>
    rcases Nat.lt_or_ge k 4 with hk | hk
    · have hk3 : k = 3 := by omega
      subst hk3
      decide
    · show heartbeatCycle (hbNeverAck k) = _
      rw [ih hk]
      decide

/-- Claim C2 (confirmed): under the part_002 heartbeat supervisor, a
registered session that never acknowledges any probe is terminated and
deregistered exactly at the fourth timer cycle, which is the third
consecutive cycle entered with the liveness flag false (the first cycle
merely clears the registration-time flag): not after one or two missed
cycles (`missedEntriesBefore 3 = 2`, still running), and not later than the
third. Each non-terminating missed cycle increments the stored missed-count
(0, then 1, then 2), and termination fires on the cycle that finds
`missed >= 2`. -/
theorem heartbeat_terminates_after_exactly_three_missed_cycles :
    (∀ n : Nat, (hbNeverAck n).terminated = true ↔ 4 ≤ n)
    ∧ missedEntriesBefore 4 = 3
    ∧ missedEntriesBefore 3 = 2
    ∧ (hbNeverAck 1).missed = 0 ∧ (hbNeverAck 2).missed = 1 ∧ (hbNeverAck 3).missed = 2 := by
  refine ⟨?_, by decide, by decide, by decide, by decide, by decide⟩
  intro n
  constructor
  · intro h
    by_contra hn
    push_neg at hn
    interval_cases n <;> exact absurd h (by decide)
  · intro h
    rw [hbNeverAck_of_ge_four n h]

/-! ## Claim C9 -/

theorem broadcastToDevices_length (reg : List (JsVal × Transport)) (msg : String) :
    (broadcastToDevices reg msg).length = reg.length := by
  induction reg with
  | nil => rfl
  | cons p rest ih => simp [broadcastToDevices, ih]

/-- Claim C9 (confirmed): the device broadcast attempts a send on every open
transport in the registry; the per-iteration `try`/`catch` means a peer whose
send throws cannot prevent delivery to any other open, non-throwing peer —
whatever the rest of the registry contains, entry `i` (open and not
throwing) receives the message. The broadcast also visits every entry
(length preserved). -/
theorem broadcast_isolates_per_send_failures (reg : List (JsVal × Transport)) (msg : String)
    (i : Nat) (name : JsVal) (t : Transport)
    (hget : reg[i]? = some (name, t)) (hopen : t.isOpen = true) (hok : t.sendThrows = false) :
    (broadcastToDevices reg msg)[i]? = some (name, .delivered)
    ∧ (broadcastToDevices reg msg).length = reg.length := by
  constructor
  · induction reg generalizing i with
    | nil => simp at hget
    | cons p rest ih =>
      rcases p with ⟨pn, pt⟩
      cases i with
      | zero =>
        simp at hget
        obtain ⟨h1, h2⟩ := hget
        subst h1
        subst h2
        simp [broadcastToDevices, trySendGuarded, sendRaw, hopen, hok]
      | succ j =>
        simp at hget
        simp [broadcastToDevices]
        exact ih j hget
  · exact broadcastToDevices_length reg msg

/-- Witness for C9: three open transports where the middle one throws on
send; the third is still delivered to (by the theorem), and the full
broadcast outcome shows the failure isolated to the throwing peer. -/
theorem broadcast_isolation_witness :
    (([(JsVal.str "A", ⟨true, false⟩), (JsVal.str "B", ⟨true, true⟩),
       (JsVal.str "C", ⟨true, false⟩)] : List (JsVal × Transport))[2]?
        = some (JsVal.str "C", ⟨true, false⟩))
    ∧ (Transport.mk true false).isOpen = true
    ∧ (Transport.mk true false).sendThrows = false
    ∧ broadcastToDevices [(JsVal.str "A", ⟨true, false⟩), (JsVal.str "B", ⟨true, true⟩),
        (JsVal.str "C", ⟨true, false⟩)] "AUTO_ON"
        = [(JsVal.str "A", .delivered), (JsVal.str "B", .sendFailed), (JsVal.str "C", .delivered)]
    ∧ (broadcastToDevices [(JsVal.str "A", ⟨true, false⟩), (JsVal.str "B", ⟨true, true⟩),
        (JsVal.str "C", ⟨true, false⟩)] "AUTO_ON")[2]? = some (JsVal.str "C", .delivered) :=
  ⟨by decide, rfl, rfl, by decide,
   (broadcast_isolates_per_send_failures
      [(JsVal.str "A", ⟨true, false⟩), (JsVal.str "B", ⟨true, true⟩),
       (JsVal.str "C", ⟨true, false⟩)] "AUTO_ON" 2 (JsVal.str "C") ⟨true, false⟩
      (by decide) rfl rfl).1⟩

/-! ## Claim C8 -/

/-- Claim C8 counterexample: the claim's "treated as not triggered **and
logged**" fails on concrete inputs — `src/server.js` returns silently (no log
line) on an HTTP-not-ok status poll, and `src/unnamed/part_001` returns
silently on a malformed (non-JSON) body. Both still complete without
broadcasting. -/
theorem status_poll_silent_failure_cex :
    checkPhpBackendServer [] (Except.ok ⟨false, 500, none⟩) = .notTriggered []
    ∧ checkPhpBackendPart001 [] (Except.ok ⟨true, 200, none⟩) = .notTriggered []
    ∧ (checkPhpBackendServer [] (Except.ok ⟨false, 500, none⟩)).logLines = []
    ∧ (checkPhpBackendPart001 [] (Except.ok ⟨true, 200, none⟩)).logLines = [] := by
  decide

/-- Claim C8 amended (proved): `checkPhpBackend` never raises to its caller
(each variant is a total function into `PollOutcome`, the outer `catch`
absorbing every thrown error); any failed poll — fetch rejection, HTTP
failure, or a body that is not valid JSON — is treated as "not triggered"
and the cycle completes without broadcasting, in both variants. Network
errors are logged (third conjunct); the server.js HTTP-not-ok path and the
part_001 parse-failure path skip silently. -/
theorem status_poll_failures_never_broadcast (reg : List (JsVal × Transport))
    (f : Except String PollResp) (hfail : pollFailed f = true) :
    (checkPhpBackendServer reg f).broadcasts = false
    ∧ (checkPhpBackendPart001 reg f).broadcasts = false
    ∧ (∀ e : String, checkPhpBackendServer reg (Except.error e)
        = .notTriggered ["checkPhpBackend error: " ++ e]) := by
  refine ⟨?_, ?_, fun e => rfl⟩
  · rcases f with e | ⟨ok, st, body⟩
    · rfl
    · cases ok
      · simp [checkPhpBackendServer, PollOutcome.broadcasts]
      · cases body with
        | none => simp [checkPhpBackendServer, PollOutcome.broadcasts]
        | some d => simp [pollFailed] at hfail
  · rcases f with e | ⟨ok, st, body⟩
    · rfl
    · cases ok
      · simp [checkPhpBackendPart001, PollOutcome.broadcasts]
      · cases body with
        | none => simp [checkPhpBackendPart001, PollOutcome.broadcasts]
        | some d => simp [pollFailed] at hfail

/-- Witness for the amended C8 at a concrete malformed-body poll. -/
theorem status_poll_failures_witness :
    pollFailed (Except.ok ⟨true, 200, none⟩) = true
    ∧ (checkPhpBackendServer [] (Except.ok ⟨true, 200, none⟩)).broadcasts = false :=
  ⟨by decide,
   (status_poll_failures_never_broadcast [] (Except.ok ⟨true, 200, none⟩) (by decide)).1⟩

/-! ## Claim C5 -/

theorem resolveStep_preserves (cache : List (String × JsVal)) (email : String) (dn : JsVal)
    (op : String × Except Unit LookupResp) (h : mapGet cache email = some dn) :
    mapGet (resolveStep cache op) email = some dn := by
  rcases op with ⟨e, f⟩
  unfold resolveStep getCachedWemosDeviceNameForUser
  by_cases he : e.data.isEmpty = true
  · simpa [he] using h
  · rw [Bool.not_eq_true] at he
    by_cases hhas : mapHas cache e = true
    · simpa [he, hhas] using h
    · have hne : ¬ e = email := by
        intro hh
        subst hh
        exact hhas (mapHas_of_mapGet_some h)
      rw [Bool.not_eq_true] at hhas
      rcases f with u | ⟨ok, ct, body⟩
      · simpa [he, hhas] using h
      · cases ok
        · simpa [he, hhas] using h
        · cases ct
          · simpa [he, hhas] using h
          · rcases body with _ | ⟨su, dn'⟩
            · simpa [he, hhas] using h
            · by_cases hsucc : (su.isTrue && dn'.truthy) = true
              · simp [he, hhas, hsucc]
                rw [mapGet_mapSet_ne cache e email dn' hne]
                exact h
              · rw [Bool.not_eq_true] at hsucc
                simpa [he, hhas, hsucc] using h

theorem resolveRun_preserves (ops : List (String × Except Unit LookupResp))
    (cache : List (String × JsVal)) (email : String) (dn : JsVal)
    (h : mapGet cache email = some dn) :
    mapGet (resolveRun cache ops) email = some dn := by
  induction ops generalizing cache with
  | nil => exact h
  | cons op rest ih => exact ih (resolveStep cache op) (resolveStep_preserves cache email dn op h)

/-- Claim C5 (confirmed): the first resolve that succeeds issues exactly one
backend call and memoizes the user→device pair; after that, no matter what
further resolve operations (any emails, any backend outcomes) run, a resolve
for that user returns the cached device identity with zero backend calls and
an unchanged cache. A failing resolve — network error, or any response the
code rejects (non-ok, wrong content type, malformed JSON, falsy success flag
or device name) — returns `none` with one call and caches nothing, so the
cache-miss state persists and the next resolve issues a fresh call. -/
theorem identity_cache_memoizes_on_success (cache : List (String × JsVal)) (email : String)
    (su dn : JsVal)
    (hmail : email.data.isEmpty = false) (hmiss : mapHas cache email = false)
    (hsu : su.isTrue = true) (hdn : dn.truthy = true) :
    getCachedWemosDeviceNameForUser cache email (.ok ⟨true, true, .parsed su dn⟩)
      = (some dn, mapSet cache email dn, 1)
    ∧ (∀ ops f, getCachedWemosDeviceNameForUser (resolveRun (mapSet cache email dn) ops) email f
        = (some dn, resolveRun (mapSet cache email dn) ops, 0))
    ∧ (∀ f, getCachedWemosDeviceNameForUser cache email (Except.error f) = (none, cache, 1))
    ∧ (∀ r : LookupResp, lookupFailed r = true →
        getCachedWemosDeviceNameForUser cache email (Except.ok r) = (none, cache, 1)) := by
  refine ⟨?_, ?_, ?_, ?_⟩
  · unfold getCachedWemosDeviceNameForUser
    simp [hmail, hmiss, hsu, hdn]
  · intro ops f
    have hc : mapGet (resolveRun (mapSet cache email dn) ops) email = some dn :=
      resolveRun_preserves ops (mapSet cache email dn) email dn (mapGet_mapSet_self cache email dn)
    have hh : mapHas (resolveRun (mapSet cache email dn) ops) email = true :=
      mapHas_of_mapGet_some hc
    unfold getCachedWemosDeviceNameForUser
    simp [hmail, hh, hc]
  · intro f
    unfold getCachedWemosDeviceNameForUser
    simp [hmail, hmiss]
  · intro r hr
    rcases r with ⟨ok, ct, body⟩
    unfold getCachedWemosDeviceNameForUser
    cases ok
    · simp [hmail, hmiss]
    · cases ct
      · simp [hmail, hmiss]
      · rcases body with _ | ⟨su', dn'⟩
        · simp [hmail, hmiss]
        · have hsf : (su'.isTrue && dn'.truthy) = false := by
            simp [lookupFailed] at hr
            rcases hr with h | h <;> simp [h]
          simp [hmail, hmiss, hsf]

/-- Witness for C5: empty cache, user `u@example.com`, backend returning
`{success: true, device_name: "D1"}`. -/
theorem identity_cache_witness :
    ("u@example.com" : String).data.isEmpty = false
    ∧ mapHas ([] : List (String × JsVal)) "u@example.com" = false
    ∧ (JsVal.bool true).isTrue = true
    ∧ (JsVal.str "D1").truthy = true
    ∧ getCachedWemosDeviceNameForUser [] "u@example.com"
        (.ok ⟨true, true, .parsed (.bool true) (.str "D1")⟩)
        = (some (.str "D1"), mapSet [] "u@example.com" (.str "D1"), 1) :=
  ⟨by decide, rfl, rfl, by decide,
   (identity_cache_memoizes_on_success [] "u@example.com" (.bool true) (.str "D1")
      (by decide) rfl rfl (by decide)).1⟩

/-! ## Claim C1 -/

theorem countKey_applyEvent_le (s : RegState) (e : RegEvent) (D : JsVal)
    (h : countKey s.reg D ≤ 1) : countKey (applyEvent s e).reg D ≤ 1 := by
  cases e with
  | connect name =>
    simp only [applyEvent]
    exact countKey_mapSet_le s.reg name D s.nextId h
  | socketClose name t =>
    simp only [applyEvent]
    split
    · exact le_trans (countKey_mapDelete_le s.reg name D) h
    · exact h
  | hbTerminate name =>
    cases hg : mapGet s.reg name with
    | none => simpa [applyEvent, hg] using h
    | some t =>
      simp only [applyEvent, hg]
      exact le_trans (countKey_mapDelete_le s.reg name D) h

theorem countKey_applyEvents_le (evts : List RegEvent) (s : RegState)
    (h : ∀ D, countKey s.reg D ≤ 1) :
    ∀ D, countKey (applyEvents s evts).reg D ≤ 1 := by
  induction evts generalizing s with
  | nil => exact h
  | cons e rest ih =>
    exact ih (applyEvent s e) (fun D => countKey_applyEvent_le s e D (h D))

theorem register_terminates_open_old (s : RegState) (D : JsVal) (old : Nat)
    (hget : mapGet s.reg D = some old) (hopen : s.openT old = true) :
    (applyEvent s (RegEvent.connect D)).openT old = false
    ∧ mapGet (applyEvent s (RegEvent.connect D)).reg D = some s.nextId := by
  constructor
  · simp only [applyEvent, hget, hopen]
    unfold RegState.openT
    simp
  · simp only [applyEvent]
    exact mapGet_mapSet_self s.reg D s.nextId

/-- Claim C1 (confirmed): in every registry state reachable from the empty
registry by connections, socket closes and heartbeat terminations, at most
one registered entry under any device identity has an open transport; and
the `connect` (register) step finding an existing entry whose transport is
open forcibly terminates that old transport (it is no longer open afterwards)
before the new transport replaces it in the registry. -/
theorem registry_at_most_one_live_session (evts : List RegEvent) (D : JsVal) :
    liveSessionsUnder (applyEvents regInit evts) D ≤ 1
    ∧ (∀ old, mapGet (applyEvents regInit evts).reg D = some old →
        (applyEvents regInit evts).openT old = true →
        (applyEvent (applyEvents regInit evts) (RegEvent.connect D)).openT old = false
        ∧ mapGet (applyEvent (applyEvents regInit evts) (RegEvent.connect D)).reg D
            = some (applyEvents regInit evts).nextId) := by
  constructor
  · unfold liveSessionsUnder
    exact le_trans (length_filter_key_le _ D _)
      (countKey_applyEvents_le evts regInit (fun D' => by simp [regInit, countKey]) D)
  · exact fun old hget hopen =>
      register_terminates_open_old (applyEvents regInit evts) D old hget hopen

/-- Witness for C1: after one connection for device `D1`, transport 0 is
registered and open; a second connection for `D1` terminates it. -/
theorem registry_single_live_witness :
    mapGet (applyEvents regInit [RegEvent.connect (.str "D1")]).reg (.str "D1") = some 0
    ∧ (applyEvents regInit [RegEvent.connect (.str "D1")]).openT 0 = true
    ∧ (applyEvent (applyEvents regInit [RegEvent.connect (.str "D1")])
         (RegEvent.connect (.str "D1"))).openT 0 = false :=
  ⟨by decide, by decide,
   ((registry_at_most_one_live_session [RegEvent.connect (.str "D1")] (.str "D1")).2 0
      (by decide) (by decide)).1⟩

/-! ## Claim C4 -/

theorem mapGet_filter_value_ne {κ : Type} [DecidableEq κ] (m : List (κ × Nat)) (D : κ)
    (t v : Nat) (hget : mapGet m D = some v) (hne : ¬ v = t) :
    mapGet (m.filter (fun p => decide (¬ p.2 = t))) D = some v := by
  induction m with
  | nil => simp [mapGet] at hget
  | cons p rest ih =>
    by_cases hk : p.1 = D
    · simp [mapGet, hk] at hget
      simp [List.filter_cons, hget, hne, mapGet, hk]
    · simp [mapGet, hk] at hget
      by_cases hp : p.2 = t
      · simp [List.filter_cons, hp]
        simpa using ih hget
      · simp [List.filter_cons, hp, mapGet, hk]
        simpa using ih hget

/-- Claim C4 counterexample: device `D1` connects twice (the second register
terminates transport 0 and stores transport 1); the stale close event of
transport 0 then fires and its close handler deletes the registry entry by
device name, evicting the newer session's entry — the claim predicted the
entry would remain `some 1`. -/
theorem stale_close_evicts_newer_entry_cex :
    mapGet (applyEvents regInit
        [RegEvent.connect (.str "D1"), RegEvent.connect (.str "D1")]).reg (.str "D1") = some 1
    ∧ mapGet (applyEvents regInit
        [RegEvent.connect (.str "D1"), RegEvent.connect (.str "D1"),
         RegEvent.socketClose (.str "D1") 0]).reg (.str "D1") = none := by
  decide

/-- Claim C4 amended (proved): in the part_000 / server.js / part_002 close
handlers, deregistration deletes the registry entry for the closing
connection's device name unconditionally — even when the stored transport is
a different (newer) handle, the newer entry is evicted. Only the part_001
variant's cleanup removes an entry when the stored handle is the closing
socket itself, and therefore preserves an entry holding a different
transport. -/
theorem close_handler_unconditional_delete (s : RegState) (D : JsVal) (t tNew : Nat)
    (hlt : t < s.nextId) (hget : mapGet s.reg D = some tNew) (hne : ¬ tNew = t) :
    mapGet (applyEvent s (RegEvent.socketClose D t)).reg D = none
    ∧ mapGet (part001CloseCleanup s.reg t) D = some tNew := by
  constructor
  · simp only [applyEvent]
    rw [if_pos hlt]
    exact mapGet_mapDelete_self s.reg D
  · exact mapGet_filter_value_ne s.reg D t tNew hget hne

/-- Witness for the amended C4 on the concrete two-connections state: the
stale close of transport 0 evicts the entry now holding transport 1, while
the part_001 handle-checking cleanup preserves it. -/
theorem close_handler_unconditional_delete_witness :
    (0 < (applyEvents regInit
        [RegEvent.connect (.str "D1"), RegEvent.connect (.str "D1")]).nextId)
    ∧ mapGet (applyEvents regInit
        [RegEvent.connect (.str "D1"), RegEvent.connect (.str "D1")]).reg (.str "D1") = some 1
    ∧ ¬ (1 : Nat) = 0
    ∧ (mapGet (applyEvent (applyEvents regInit
          [RegEvent.connect (.str "D1"), RegEvent.connect (.str "D1")])
          (RegEvent.socketClose (.str "D1") 0)).reg (.str "D1") = none
       ∧ mapGet (part001CloseCleanup (applyEvents regInit
          [RegEvent.connect (.str "D1"), RegEvent.connect (.str "D1")]).reg 0) (.str "D1")
          = some 1) :=
  ⟨by decide, by decide, by decide,
   close_handler_unconditional_delete
     (applyEvents regInit [RegEvent.connect (.str "D1"), RegEvent.connect (.str "D1")])
     (.str "D1") 0 1 (by decide) (by decide) (by decide)⟩

end ATS
